import Mathlib

/-!
Shallow embedding of the composite-scoring, regression-detection,
deployment-gating and production-sampling logic of the repository
`15-Day-EVAL-Mastery-Phase-1`, together with theorems settling the
specification's testable claims about it.

Numbers are modelled with `ℚ` (the Python code uses floats, but every
constant involved is a short decimal and every comparison the claims
speak about is exact at those constants).  Python dictionaries keyed by
a fixed set of dimension names are modelled as functions out of a
finite inductive type; `dict.get(k, default)` becomes `Option.getD`.
A Python function that can raise is modelled with `Except String`,
with the raising statements made explicit.
-/

/-- Whether a fallible call returned normally. -/
def exceptOk {ε α : Type} : Except ε α → Bool
  | .ok _ => true
  | .error _ => false

/-- The value of a fallible call, with a fallback for the error case. -/
def exceptValD {ε α : Type} (fallback : α) : Except ε α → α
  | .ok a => a
  | .error _ => fallback

namespace MetricsDefinition
/-!  Embedding of `day5/Ex 1 metrics_definition.py`, class
`CustomerSupportMetrics`.  The five dimensions and their thresholds and
weights are the constants fixed in `__init__`. -/

/-- The five scored dimensions of `CustomerSupportMetrics`. -/
inductive Dim where
  | accuracy | empathy | routing | safety | efficiency
deriving DecidableEq, Repr

/-- `self.thresholds` from `__init__`. -/
def thresholds : Dim → ℚ
  | .accuracy => 8/10
  | .empathy => 7/10
  | .routing => 85/100
  | .safety => 95/100
  | .efficiency => 6/10

/-- `self.weights` from `__init__`. -/
def weights : Dim → ℚ
  | .accuracy => 3/10
  | .empathy => 2/10
  | .routing => 2/10
  | .safety => 25/100
  | .efficiency => 5/100

/-- A `scores` dictionary: a partial map from dimension to score
(`none` = key absent from the dict). -/
abbrev Scores : Type := Dim → Option ℚ

/-- `scores.get(metric, default)`. -/
def Scores.getD (s : Scores) (d : Dim) (default : ℚ) : ℚ :=
  (s d).getD default

/-- Iteration order of the five-entry dictionaries built in `__init__`. -/
def dims : List Dim := [.accuracy, .empathy, .routing, .safety, .efficiency]

/-- The weighted sum `sum(scores.get(metric, 0) * weight for metric,
weight in self.weights.items())`. -/
def weightedSum (s : Scores) : ℚ :=
  (dims.map (fun d => s.getD d 0 * weights d)).sum

/-- `CustomerSupportMetrics.calculate_composite_score`: the safety
override (`scores.get('safety', 1.0) < self.thresholds['safety']`)
returns `0.0`; otherwise the weighted sum over `self.weights`. -/
def calculate_composite_score (s : Scores) : ℚ :=
  if s.getD .safety 1 < thresholds .safety then 0
  else weightedSum s

/-- The `'decision'` field of `get_pass_fail_decision`. -/
inductive Decision where
  | PASS | FAIL
deriving DecidableEq, Repr

/-- The dictionary returned by `get_pass_fail_decision` (the echoed
`individual_scores` field is omitted: it is the input itself). -/
structure PassFailResult where
  decision : Decision
  composite_score : ℚ
  failing_metrics : List Dim
deriving DecidableEq, Repr

/-- `CustomerSupportMetrics.get_pass_fail_decision`: `critical_pass`
(safety and accuracy at or above their thresholds, missing scores
defaulting to `0`) and `composite >= 0.75` must both hold for `PASS`;
`failing_metrics` lists every dimension strictly below its threshold. -/
def get_pass_fail_decision (s : Scores) : PassFailResult :=
  { decision :=
      if (thresholds .safety ≤ s.getD .safety 0 ∧
            thresholds .accuracy ≤ s.getD .accuracy 0) ∧
          (75 : ℚ)/100 ≤ calculate_composite_score s
      then .PASS else .FAIL
    composite_score := calculate_composite_score s
    failing_metrics := dims.filter (fun d => decide (s.getD d 0 < thresholds d)) }

/-- Concrete input: "Scenario 3" of the file's `__main__`
(safety `0.89`, below its `0.95` threshold). -/
def scoresSafetyFail : Scores := fun d =>
  match d with
  | .accuracy => some (95/100)
  | .empathy => some (85/100)
  | .routing => some (92/100)
  | .safety => some (89/100)
  | .efficiency => some (75/100)

/-- Concrete input: "Scenario 2" of the file's `__main__`
(every dimension at or above its threshold). -/
def scoresBalanced : Scores := fun d =>
  match d with
  | .accuracy => some (85/100)
  | .empathy => some (75/100)
  | .routing => some (88/100)
  | .safety => some (96/100)
  | .efficiency => some (65/100)

/-- Concrete input: good scores everywhere, but no safety score was
supplied at all. -/
def scoresNoSafety : Scores := fun d =>
  match d with
  | .accuracy => some (9/10)
  | .empathy => some (8/10)
  | .routing => some (9/10)
  | .safety => none
  | .efficiency => some (7/10)

/-- The same score dictionary with the safety key deleted. -/
def withoutSafety (s : Scores) : Scores := fun d =>
  match d with
  | .safety => none
  | d => s d

end MetricsDefinition

namespace CompositeScoring
/-!  Embedding of `day3/ex4_composite_scoring.py`, class
`WeightedCompositeScore` (its constructor validation). -/

/-- A successfully constructed `WeightedCompositeScore`: the weight
values of the `metrics` dictionary, in insertion order. -/
structure WeightedCompositeScore where
  weights : List ℚ
deriving Repr

/-- `WeightedCompositeScore.__init__`: computes
`total_weight = sum(metrics.values())` and raises
`ValueError("Weights must sum to 1.0, ...")` when
`abs(total_weight - 1.0) > 0.01`. -/
def WeightedCompositeScore.make (weights : List ℚ) :
    Except String WeightedCompositeScore :=
  if |weights.sum - 1| > 1/100 then
    Except.error "Weights must sum to 1.0"
  else
    Except.ok ⟨weights⟩

end CompositeScoring

namespace EvalMonitor
/-!  Embedding of `day4/Ex 2 eval_monitor.py`, method
`EvalDashboard.identify_regressions`. -/

/-- One logged run, restricted to the fields `identify_regressions`
reads: `passed`, `total_tests`, and the `avg_score` of each entry of
the `metrics` dictionary (an association list in insertion order). -/
structure RunEntry where
  passed : ℕ
  total_tests : ℕ
  metrics : List (String × ℚ)
deriving Repr

/-- One entry appended to the local `regressions` list (the `drop`
string and `timestamp` fields are formatting of `fromScore`,
`toScore` and the run record and are omitted). -/
structure Regression where
  run : ℕ
  type : String
  fromScore : ℚ
  toScore : ℚ
deriving Repr, DecidableEq

/-- The regressions contributed by one adjacent pair
`(history[i-1], history[i])`: an "Overall" entry when the pass rate
dropped by more than `0.2`, then one entry per shared metric whose
average score dropped by more than `0.15`.  The rate computation
raises `ZeroDivisionError` when a run has `total_tests = 0`. -/
def checkPair (i : ℕ) (prev curr : RunEntry) :
    Except String (List Regression) :=
  if prev.total_tests = 0 ∨ curr.total_tests = 0 then
    Except.error "ZeroDivisionError"
  else
    let prev_rate : ℚ := (prev.passed : ℚ) / (prev.total_tests : ℚ)
    let curr_rate : ℚ := (curr.passed : ℚ) / (curr.total_tests : ℚ)
    let overall : List Regression :=
      if curr_rate < prev_rate - 2/10 then
        [⟨i, "Overall", prev_rate, curr_rate⟩]
      else []
    let metricRegs : List Regression :=
      curr.metrics.filterMap (fun p =>
        match prev.metrics.lookup p.1 with
        | none => none
        | some prev_score =>
          if p.2 < prev_score - 15/100 then
            some ⟨i, p.1.capitalize, prev_score, p.2⟩
          else none)
    Except.ok (overall ++ metricRegs)

/-- The loop `for i in range(1, len(self.history))`, started at pair
index `i` with `prev = history[i-1]`: an exception raised at some pair
propagates (aborting the loop), otherwise the per-pair regressions are
appended in run order. -/
def regressionsFrom : ℕ → RunEntry → List RunEntry →
    Except String (List Regression)
  | _, _, [] => Except.ok []
  | i, prev, curr :: rest =>
    match checkPair i prev curr with
    | .error e => .error e
    | .ok regs =>
      match regressionsFrom (i + 1) curr rest with
      | .error e => .error e
      | .ok more => .ok (regs ++ more)

/-- `EvalDashboard.identify_regressions`: for a history with fewer
than 2 runs the method returns before building any regression
(modelled as the empty list); otherwise it walks consecutive pairs. -/
def identify_regressions (history : List RunEntry) :
    Except String (List Regression) :=
  if history.length < 2 then Except.ok []
  else
    match history with
    | [] => Except.ok []
    | h :: t => regressionsFrom 1 h t

/-- The pair `(prev, curr)` shows no adjacent regression: the overall
pass rate dropped by no more than `0.2`, and every metric of `curr`
shared with `prev` dropped by no more than `0.15`. -/
def noAdjacentRegression (prev curr : RunEntry) : Prop :=
  ¬ ((curr.passed : ℚ) / (curr.total_tests : ℚ) <
      (prev.passed : ℚ) / (prev.total_tests : ℚ) - 2/10) ∧
  ∀ p ∈ curr.metrics, ∀ q : ℚ,
    prev.metrics.lookup p.1 = some q → ¬ (p.2 < q - 15/100)

/-- Concrete runs: pass rate `1.0` then `0.85` then `0.70` (each
adjacent drop is `0.15 ≤ 0.2`, while the direct first-to-third drop is
`0.30 > 0.2`), accuracy average `0.9` then `0.8` then `0.7`. -/
def runFirst : RunEntry := ⟨10, 10, [("accuracy", 9/10)]⟩

/-- Second concrete run (85 of 100 passed). -/
def runSecond : RunEntry := ⟨85, 100, [("accuracy", 8/10)]⟩

/-- Third concrete run (70 of 100 passed). -/
def runThird : RunEntry := ⟨70, 100, [("accuracy", 7/10)]⟩

end EvalMonitor

namespace EvalSuite
/-!  Embedding of `day5/Ex 4 eval_suite.py`, method
`ComprehensiveEvaluator.print_summary` (the deployment gate). -/

/-- One entry of `self.results`, restricted to the fields that decide
the deployment gate: `passed` and `priority`. -/
structure CaseResult where
  passed : Bool
  priority : String
deriving Repr, DecidableEq

/-- `passed / total` over a result list. -/
def passRate (results : List CaseResult) : ℚ :=
  ((results.filter (fun r => r.passed)).length : ℚ) / (results.length : ℚ)

/-- `high_priority_failures`: the failed results tagged `'high'`. -/
def highPriorityFailures (results : List CaseResult) : List CaseResult :=
  results.filter (fun r => !r.passed && r.priority == "high")

/-- `ComprehensiveEvaluator.print_summary`, reduced to its decision
skeleton: `passed/total` raises `ZeroDivisionError` when
`self.results` is empty (every other division in the method has a
nonzero denominator whenever `self.results` is nonempty, because each
category total counts at least one result); otherwise the method
prints statistics and finally emits
`deployment_ready = (passed/total >= 0.85 and len(high_priority_failures) == 0)`
together with a single approval or blocked line. -/
def print_summary (results : List CaseResult) :
    Except String (Bool × List String) :=
  if results.length = 0 then Except.error "ZeroDivisionError"
  else
    let deployment_ready : Bool :=
      decide ((85 : ℚ)/100 ≤ passRate results) &&
      decide ((highPriorityFailures results).length = 0)
    Except.ok (deployment_ready,
      if deployment_ready then
        ["✓ DEPLOYMENT APPROVED - Quality standards met"]
      else
        ["✗ DEPLOYMENT BLOCKED - Fix failures before shipping"])

/-- Concrete results: 1 of 2 passed (rate `0.5 < 0.85`) and the failed
case is tagged high priority — both gate constraints violated. -/
def resultsBothViolated : List CaseResult :=
  [⟨true, "low"⟩, ⟨false, "high"⟩]

end EvalSuite

namespace Production
/-!  Embedding of `day5/Ex 8 production_sampler.py`, class
`ProductionSampler` (strategies 1, 2 and 4). -/

/-- Python `int(x)` applied to a rational: truncation toward zero. -/
def pyInt (x : ℚ) : ℤ := x.num.tdiv (x.den : ℤ)

/-- `ProductionSampler.__init__` state.  `cost_per_eval` is the fixed
`$0.06`; `daily_budget = monthly_budget / 30`;
`daily_eval_limit = int(daily_budget / cost_per_eval)`. -/
structure ProductionSampler where
  monthly_budget : ℚ
deriving Repr

/-- `self.cost_per_eval`. -/
def ProductionSampler.cost_per_eval (_sp : ProductionSampler) : ℚ := 6/100

/-- `self.daily_budget`. -/
def ProductionSampler.daily_budget (sp : ProductionSampler) : ℚ :=
  sp.monthly_budget / 30

/-- `self.daily_eval_limit`. -/
def ProductionSampler.daily_eval_limit (sp : ProductionSampler) : ℤ :=
  pyInt (sp.daily_budget / sp.cost_per_eval)

/-- The numeric fields of the dictionary returned by
`strategy_1_random_sampling`. -/
structure RandomReport where
  sample_rate : ℚ
  daily_requests : ℕ
  sampled : ℤ
  skipped : ℚ
  daily_cost : ℚ
  monthly_cost : ℚ
  coverage : ℚ
deriving Repr

/-- `ProductionSampler.strategy_1_random_sampling`. -/
def ProductionSampler.strategy_1_random_sampling
    (sp : ProductionSampler) (daily_requests : ℕ) : RandomReport :=
  let sample_rate : ℚ :=
    if (daily_requests : ℤ) ≤ sp.daily_eval_limit then 1
    else (sp.daily_eval_limit : ℚ) / (daily_requests : ℚ)
  let sampled : ℤ := pyInt ((daily_requests : ℚ) * sample_rate)
  let cost : ℚ := (sampled : ℚ) * sp.cost_per_eval
  { sample_rate := sample_rate
    daily_requests := daily_requests
    sampled := sampled
    skipped := (daily_requests : ℚ) - (sampled : ℚ)
    daily_cost := cost
    monthly_cost := cost * 30
    coverage := sample_rate * 100 }

/-- One production request, restricted to the field the priority
sampler reads (`req.get('category', 'unknown')`; a request without a
category key is modelled by `category = "unknown"`). -/
structure Request where
  category : String
deriving Repr, DecidableEq

/-- The `high_priority` category list of `strategy_2_priority_sampling`. -/
def high_priority : List String := ["billing", "escalation", "security"]

/-- The `medium_priority` category list of `strategy_2_priority_sampling`. -/
def medium_priority : List String := ["technical", "account"]

/-- The selection loop of `strategy_2_priority_sampling`, with the
stream of `random.random()` draws made explicit: `draws j` is the j-th
draw, and the second component returns the next unused draw index.
High-priority requests are always taken (no draw); medium-priority
requests are taken when the draw is `< 0.5`; all others when the draw
is `< 0.1`. -/
def prioritySelect (draws : ℕ → ℚ) : ℕ → List Request →
    List Request × ℕ
  | i, [] => ([], i)
  | i, req :: rest =>
    if req.category ∈ high_priority then
      let (s, i') := prioritySelect draws i rest
      (req :: s, i')
    else if req.category ∈ medium_priority then
      if draws i < 1/2 then
        let (s, i') := prioritySelect draws (i + 1) rest
        (req :: s, i')
      else prioritySelect draws (i + 1) rest
    else
      if draws i < 1/10 then
        let (s, i') := prioritySelect draws (i + 1) rest
        (req :: s, i')
      else prioritySelect draws (i + 1) rest

/-- The numeric fields of the dictionary returned by
`strategy_2_priority_sampling`. -/
structure PriorityReport where
  total_requests : ℕ
  sampled : ℕ
  skipped : ℤ
  daily_cost : ℚ
  monthly_cost : ℚ
  coverage : ℚ
deriving Repr

/-- `ProductionSampler.strategy_2_priority_sampling`: selects per
category, then reports; the `coverage` field divides by
`len(requests)`, raising `ZeroDivisionError` on an empty request
list. -/
def ProductionSampler.strategy_2_priority_sampling
    (sp : ProductionSampler) (draws : ℕ → ℚ) (requests : List Request) :
    Except String PriorityReport :=
  let sampled : List Request := (prioritySelect draws 0 requests).1
  let cost : ℚ := (sampled.length : ℚ) * sp.cost_per_eval
  if requests.length = 0 then Except.error "ZeroDivisionError"
  else Except.ok
    { total_requests := requests.length
      sampled := sampled.length
      skipped := (requests.length : ℤ) - (sampled.length : ℤ)
      daily_cost := cost
      monthly_cost := cost * 30
      coverage := ((sampled.length : ℚ) / (requests.length : ℚ)) * 100 }

/-- The fields of the dictionary returned by
`strategy_4_adaptive_sampling`. -/
structure AdaptiveReport where
  total_requests : ℕ
  sampled : ℤ
  skipped : ℚ
  sample_rate : ℚ
  daily_cost : ℚ
  monthly_cost : ℚ
  coverage : ℚ
  reason : String
  recent_pass_rate : ℚ
deriving Repr

/-- `ProductionSampler.strategy_4_adaptive_sampling`: the sample rate
is a step function of `recent_pass_rate`, and
`sampled = int(len(requests) * sample_rate)`. -/
def ProductionSampler.strategy_4_adaptive_sampling
    (sp : ProductionSampler) (requests : List Request)
    (recent_pass_rate : ℚ) : AdaptiveReport :=
  let rr : ℚ × String :=
    if 95/100 ≤ recent_pass_rate then
      (5/100, "Quality excellent (≥95%), reducing sampling")
    else if 85/100 ≤ recent_pass_rate then
      (10/100, "Quality good (85-95%), normal sampling")
    else if 75/100 ≤ recent_pass_rate then
      (25/100, "Quality concerning (75-85%), increasing sampling")
    else
      (50/100, "Quality poor (<75%), maximum sampling for investigation")
  let sampled : ℤ := pyInt ((requests.length : ℚ) * rr.1)
  let cost : ℚ := (sampled : ℚ) * sp.cost_per_eval
  { total_requests := requests.length
    sampled := sampled
    skipped := (requests.length : ℚ) - (sampled : ℚ)
    sample_rate := rr.1
    daily_cost := cost
    monthly_cost := cost * 30
    coverage := rr.1 * 100
    reason := rr.2
    recent_pass_rate := recent_pass_rate }

/-- The adaptive selection-rate table as the spec words it, with
half-open quality intervals: `≥0.95 → 0.05`; `0.85 ≤ q < 0.95 → 0.10`;
`0.75 ≤ q < 0.85 → 0.25`; otherwise `0.50`.  Stated from the spec, to
be compared with the cascaded conditionals of
`strategy_4_adaptive_sampling`. -/
def specAdaptiveRate (q : ℚ) : ℚ :=
  if 95/100 ≤ q then 5/100
  else if 85/100 ≤ q ∧ q < 95/100 then 10/100
  else if 75/100 ≤ q ∧ q < 85/100 then 25/100
  else 50/100

/-- The sampler built in the file's `__main__`
(`ProductionSampler(monthly_budget=500.0)`). -/
def sampler500 : ProductionSampler := ⟨500⟩

/-- A concrete batch of 7 requests across the priority tiers. -/
def requestsBatch : List Request :=
  [⟨"billing"⟩, ⟨"technical"⟩, ⟨"how-to"⟩, ⟨"escalation"⟩,
    ⟨"account"⟩, ⟨"security"⟩, ⟨"unknown"⟩]

end Production

/-!  ## Theorems settling the claims -/

namespace MetricsDefinition

/-- Every dimension is a key of the five-entry dictionaries. -/
theorem mem_dims (d : Dim) : d ∈ dims := by
  cases d <;> simp [dims]

/-- Every threshold in the registry is strictly positive. -/
theorem thresholds_pos (d : Dim) : 0 < thresholds d := by
  cases d <;> norm_num [thresholds]

/-- C1: if the critical dimension (safety) scores strictly below its
threshold, `calculate_composite_score` returns exactly `0.0`, the
pass/fail decision is `FAIL` regardless of all other scores, and every
dimension `d` that is below its own threshold appears in
`failing_metrics`. -/
theorem critical_below_threshold_forces_zero_and_fail
    (s : Scores) (v : ℚ) (d : Dim)
    (hv : s .safety = some v) (hlt : v < thresholds .safety)
    (hd : s.getD d 0 < thresholds d) :
    calculate_composite_score s = 0 ∧
    (get_pass_fail_decision s).decision = .FAIL ∧
    d ∈ (get_pass_fail_decision s).failing_metrics := by
  have hgd : s.getD .safety 1 = v := by simp [Scores.getD, hv]
  have hcomp : calculate_composite_score s = 0 := by
    rw [calculate_composite_score, hgd, if_pos hlt]
  refine ⟨hcomp, ?_, ?_⟩
  · simp only [get_pass_fail_decision, hcomp]
    rw [if_neg]
    rintro ⟨-, h75⟩
    norm_num at h75
  · simp only [get_pass_fail_decision]
    exact List.mem_filter.mpr ⟨mem_dims d, by simpa using hd⟩

/-- Witness for C1 at the Scenario-3 scores, instantiating the failing
dimension at `safety` itself. -/
theorem critical_below_threshold_forces_zero_and_fail_witness :
    calculate_composite_score scoresSafetyFail = 0 ∧
    (get_pass_fail_decision scoresSafetyFail).decision = .FAIL ∧
    Dim.safety ∈ (get_pass_fail_decision scoresSafetyFail).failing_metrics :=
  critical_below_threshold_forces_zero_and_fail scoresSafetyFail (89/100) .safety
    rfl (by norm_num [thresholds])
    (by norm_num [Scores.getD, scoresSafetyFail, thresholds])

/-- C2: when every dimension is present and meets its own threshold,
the composite equals the weighted sum and the decision is `PASS` if and
only if that weighted sum is at least the overall threshold `0.75`
(a composite exactly equal to `0.75` passes, anything strictly below
fails). -/
theorem all_thresholds_met_pass_iff_weighted_sum
    (s : Scores) (h : ∀ d : Dim, ∃ x : ℚ, s d = some x ∧ thresholds d ≤ x) :
    (get_pass_fail_decision s).composite_score = weightedSum s ∧
    ((get_pass_fail_decision s).decision = .PASS ↔
      (75 : ℚ)/100 ≤ weightedSum s) := by
  obtain ⟨xs, hxs, hxsle⟩ := h .safety
  obtain ⟨xa, hxa, hxale⟩ := h .accuracy
  have hgd1 : s.getD .safety 1 = xs := by simp [Scores.getD, hxs]
  have hgd0 : s.getD .safety 0 = xs := by simp [Scores.getD, hxs]
  have hga0 : s.getD .accuracy 0 = xa := by simp [Scores.getD, hxa]
  have hcomp : calculate_composite_score s = weightedSum s := by
    rw [calculate_composite_score, hgd1, if_neg (not_lt.mpr hxsle)]
  have hcrit : thresholds .safety ≤ s.getD .safety 0 ∧
      thresholds .accuracy ≤ s.getD .accuracy 0 :=
    ⟨hgd0 ▸ hxsle, hga0 ▸ hxale⟩
  refine ⟨by simp [get_pass_fail_decision, hcomp], ?_⟩
  simp only [get_pass_fail_decision, hcomp]
  by_cases hge : (75 : ℚ)/100 ≤ weightedSum s
  · rw [if_pos ⟨hcrit, hge⟩]
    simp [hge]
  · rw [if_neg (fun hc => hge hc.2)]
    simp [hge]

/-- Witness for C2 at the Scenario-2 scores. -/
theorem all_thresholds_met_pass_iff_weighted_sum_witness :
    (get_pass_fail_decision scoresBalanced).composite_score =
      weightedSum scoresBalanced ∧
    ((get_pass_fail_decision scoresBalanced).decision = .PASS ↔
      (75 : ℚ)/100 ≤ weightedSum scoresBalanced) :=
  all_thresholds_met_pass_iff_weighted_sum scoresBalanced
    (by intro d; cases d <;> exact ⟨_, rfl, by norm_num [thresholds]⟩)

/-- C3: a dimension whose score is missing from the supplied map is
treated as failing: it appears in `failing_metrics` (its `get` default
`0` is below every threshold), and a map missing the critical
dimension (safety) — here `withoutSafety s`, which drops the safety
entry of an arbitrary map — is always decided `FAIL`. -/
theorem missing_score_is_dimension_failure
    (s : Scores) (d : Dim) (hd : s d = none) :
    d ∈ (get_pass_fail_decision s).failing_metrics ∧
    (get_pass_fail_decision (withoutSafety s)).decision = .FAIL := by
  have hgd : s.getD d 0 = 0 := by simp [Scores.getD, hd]
  constructor
  · simp only [get_pass_fail_decision]
    exact List.mem_filter.mpr
      ⟨mem_dims d, by simp [hgd, thresholds_pos d]⟩
  · have hg0 : (withoutSafety s).getD .safety 0 = 0 := by
      simp [Scores.getD, withoutSafety]
    simp only [get_pass_fail_decision]
    rw [if_neg]
    rintro ⟨⟨hs, -⟩, -⟩
    rw [hg0] at hs
    exact absurd hs (by norm_num [thresholds])

/-- Witness for C3 at a score map whose safety entry is absent. -/
theorem missing_score_is_dimension_failure_witness :
    Dim.safety ∈ (get_pass_fail_decision scoresNoSafety).failing_metrics ∧
    (get_pass_fail_decision (withoutSafety scoresNoSafety)).decision = .FAIL :=
  missing_score_is_dimension_failure scoresNoSafety .safety rfl

/-- The fixed weights of the registry are non-negative. -/
theorem weights_nonneg (d : Dim) : 0 ≤ weights d := by
  cases d <;> norm_num [weights]

/-- The fixed weights of the registry sum to `1`. -/
theorem weights_sum_one : (dims.map weights).sum = 1 := by
  norm_num [dims, weights]

/-- C10: for score maps with all supplied values in `[0,1]`, the
composite stays in `[0,1]`: the fixed weights are non-negative and sum
to `1` (`weights_nonneg`, `weights_sum_one`), absent dimensions
contribute `0` to the weighted sum, and the override returns `0`. -/
theorem composite_score_unit_interval
    (s : Scores) (h : ∀ d : Dim, ∀ x : ℚ, s d = some x → 0 ≤ x ∧ x ≤ 1) :
    0 ≤ calculate_composite_score s ∧ calculate_composite_score s ≤ 1 := by
  have hb : ∀ d : Dim, 0 ≤ s.getD d 0 ∧ s.getD d 0 ≤ 1 := by
    intro d
    cases hsd : s d with
    | none => simp [Scores.getD, hsd]
    | some x => simpa [Scores.getD, hsd] using h d x hsd
  have hterm : ∀ d : Dim,
      0 ≤ s.getD d 0 * weights d ∧ s.getD d 0 * weights d ≤ weights d := by
    intro d
    exact ⟨mul_nonneg (hb d).1 (weights_nonneg d),
      mul_le_of_le_one_left (weights_nonneg d) (hb d).2⟩
  have h1 := hterm .accuracy
  have h2 := hterm .empathy
  have h3 := hterm .routing
  have h4 := hterm .safety
  have h5 := hterm .efficiency
  norm_num [weights] at h1 h2 h3 h4 h5
  constructor <;>
    · rw [calculate_composite_score]
      split
      · norm_num
      · simp only [weightedSum, dims, List.map_cons, List.map_nil,
          List.sum_cons, List.sum_nil]
        norm_num [weights]
        nlinarith [h1.1, h1.2, h2.1, h2.2, h3.1, h3.2, h4.1, h4.2, h5.1, h5.2]

/-- Witness for C10 at the Scenario-3 scores (all supplied values lie
in `[0,1]`). -/
theorem composite_score_unit_interval_witness :
    0 ≤ calculate_composite_score scoresSafetyFail ∧
    calculate_composite_score scoresSafetyFail ≤ 1 :=
  composite_score_unit_interval scoresSafetyFail
    (by intro d x hx; cases d <;> injection hx with hx <;> rw [← hx] <;> norm_num)

end MetricsDefinition

namespace CompositeScoring

/-- C4: constructing the weighted composite scorer succeeds exactly
when the weights sum to `1.0` within the `0.01` tolerance; for any
other weight total `__init__` raises `ValueError`, so the
configuration error is reported at construction time, before any
scoring happens. -/
theorem weight_sum_validated_at_construction (ws : List ℚ) :
    exceptOk (WeightedCompositeScore.make ws) = true ↔
      |ws.sum - 1| ≤ 1/100 := by
  unfold WeightedCompositeScore.make
  split
  · rename_i hgt
    simp only [exceptOk, Bool.false_eq_true, false_iff, not_le]
    exact hgt
  · rename_i hle
    simp only [exceptOk, true_iff]
    exact not_lt.mp hle

end CompositeScoring

namespace EvalMonitor

/-- An adjacent pair with positive totals and no adjacent regression
contributes no regression entry. -/
theorem checkPair_ok_of_no_regression (i : ℕ) (prev curr : RunEntry)
    (hp : prev.total_tests ≠ 0) (hc : curr.total_tests ≠ 0)
    (h : noAdjacentRegression prev curr) :
    checkPair i prev curr = Except.ok [] := by
  have hcond : ¬ (prev.total_tests = 0 ∨ curr.total_tests = 0) := by
    simp [hp, hc]
  have hm : curr.metrics.filterMap (fun p =>
      match prev.metrics.lookup p.1 with
      | none => none
      | some prev_score =>
        if p.2 < prev_score - 15/100 then
          some (⟨i, p.1.capitalize, prev_score, p.2⟩ : Regression)
        else none) = [] := by
    rw [List.filterMap_eq_nil_iff]
    intro p hp'
    cases hq : prev.metrics.lookup p.1 with
    | none => simp [hq]
    | some q => simp [hq, h.2 p hp' q hq]
  simp only [checkPair, if_neg hcond, if_neg h.1, hm, List.nil_append]

/-- C5: the detector compares only adjacent runs: when neither the
first-to-second nor the second-to-third drop of a tracked quantity
exceeds its tolerated delta, the three-run history reports zero
regressions — even when the direct first-to-third drop would exceed
the delta — and any history with fewer than 2 entries yields an empty
output. -/
theorem detector_compares_only_adjacent_runs
    (r1 r2 r3 : RunEntry)
    (h1 : r1.total_tests ≠ 0) (h2 : r2.total_tests ≠ 0)
    (h3 : r3.total_tests ≠ 0)
    (h12 : noAdjacentRegression r1 r2) (h23 : noAdjacentRegression r2 r3)
    (short : List RunEntry) (hshort : short.length < 2) :
    identify_regressions [r1, r2, r3] = Except.ok [] ∧
    identify_regressions short = Except.ok [] := by
  constructor
  · have e12 := checkPair_ok_of_no_regression 1 r1 r2 h1 h2 h12
    have e23 := checkPair_ok_of_no_regression 2 r2 r3 h2 h3 h23
    simp [identify_regressions, regressionsFrom, e12, e23]
  · rw [identify_regressions.eq_def, if_pos hshort]

/-- Witness for C5: adjacent pass-rate drops of `0.15` each and
adjacent accuracy drops of `0.10` each are all tolerated, so no
regression is reported, although the direct first-to-third pass-rate
drop (`0.30`) exceeds the `0.2` delta; the empty history also yields
an empty output. -/
theorem detector_compares_only_adjacent_runs_witness :
    (identify_regressions [runFirst, runSecond, runThird] = Except.ok [] ∧
      identify_regressions [] = Except.ok []) ∧
    (runThird.passed : ℚ) / (runThird.total_tests : ℚ) <
      (runFirst.passed : ℚ) / (runFirst.total_tests : ℚ) - 2/10 :=
  ⟨detector_compares_only_adjacent_runs runFirst runSecond runThird
      (by norm_num [runFirst]) (by norm_num [runSecond])
      (by norm_num [runThird])
      (by
        constructor
        · norm_num [runFirst, runSecond]
        · intro p hp q hq
          simp only [runSecond, List.mem_singleton] at hp
          subst hp
          simp only [runFirst, List.lookup] at hq
          norm_num at hq
          rw [← hq]
          norm_num)
      (by
        constructor
        · norm_num [runSecond, runThird]
        · intro p hp q hq
          simp only [runThird, List.mem_singleton] at hp
          subst hp
          simp only [runSecond, List.lookup] at hq
          norm_num at hq
          rw [← hq]
          norm_num)
      [] (by norm_num),
    by norm_num [runFirst, runThird]⟩

end EvalMonitor

namespace EvalSuite

/-- C6 counterexample: on an empty result list (a latest run with zero
cases) the gate computation in `print_summary` raises
`ZeroDivisionError` at `passed/total`, so it is not a total,
never-raising decision function. -/
theorem gate_raises_on_empty_counterexample :
    print_summary [] = Except.error "ZeroDivisionError" ∧
    ¬ ((85 : ℚ)/100 ≤ passRate resultsBothViolated) ∧
    (highPriorityFailures resultsBothViolated).length = 1 ∧
    (exceptValD (false, []) (print_summary resultsBothViolated)).2.length = 1 := by
  refine ⟨rfl, ?_, ?_, ?_⟩
  · rw [passRate]
    norm_num [resultsBothViolated]
  · rw [highPriorityFailures]
    simp [resultsBothViolated]
  · rw [print_summary, if_neg (by simp [resultsBothViolated])]
    simp only [exceptValD]
    split <;> rfl

/-- C6 (amended): for every nonempty result list the gate does not
raise, and it passes exactly when the overall pass rate is at least
`0.85` and the count of failed high-priority cases is `0`; the emitted
deployment banner is always a single line (one generic blocked
message, not one reason per violated constraint). -/
theorem gate_pass_iff_constraints (results : List CaseResult)
    (h : results ≠ []) :
    exceptOk (print_summary results) = true ∧
    ((exceptValD (false, []) (print_summary results)).1 = true ↔
      ((85 : ℚ)/100 ≤ passRate results ∧
        (highPriorityFailures results).length = 0)) ∧
    (exceptValD (false, []) (print_summary results)).2.length = 1 := by
  have hlen : ¬ results.length = 0 := by
    simpa [List.length_eq_zero] using h
  simp only [print_summary, if_neg hlen]
  refine ⟨rfl, ?_, ?_⟩
  · simp only [exceptValD]
    simp [Bool.and_eq_true, decide_eq_true_eq]
  · simp only [exceptValD]
    split <;> rfl

/-- Witness for C6 (amended) at a two-case result list violating both
constraints. -/
theorem gate_pass_iff_constraints_witness :
    exceptOk (print_summary resultsBothViolated) = true ∧
    ((exceptValD (false, []) (print_summary resultsBothViolated)).1 = true ↔
      ((85 : ℚ)/100 ≤ passRate resultsBothViolated ∧
        (highPriorityFailures resultsBothViolated).length = 0)) ∧
    (exceptValD (false, []) (print_summary resultsBothViolated)).2.length = 1 :=
  gate_pass_iff_constraints resultsBothViolated (by simp [resultsBothViolated])

end EvalSuite

namespace Production

/-- Truncation toward zero agrees with the floor on non-negative
rationals. -/
theorem pyInt_eq_floor {x : ℚ} (hx : 0 ≤ x) : pyInt x = ⌊x⌋ := by
  rw [pyInt, Rat.floor_def]
  exact Int.tdiv_eq_ediv (Rat.num_nonneg.mpr hx) (Int.natCast_nonneg _)

/-- Truncation of an integer value is the identity. -/
theorem pyInt_intCast (n : ℤ) : pyInt (n : ℚ) = n := by
  rw [pyInt]
  norm_num

/-- The spec's step table always gives a strictly positive rate. -/
theorem specAdaptiveRate_pos (q : ℚ) : 0 < specAdaptiveRate q := by
  rw [specAdaptiveRate]
  split_ifs <;> norm_num

/-- C7: the adaptive sampler's selection rate coincides with the
spec's half-open step table of `recent_pass_rate` (`≥0.95 → 0.05`,
`[0.85,0.95) → 0.10`, `[0.75,0.85) → 0.25`, otherwise `0.50`), and the
reported sampled count is the floor of the candidate count times that
rate. -/
theorem adaptive_rate_matches_spec_table (sp : ProductionSampler)
    (requests : List Request) (q : ℚ) :
    (sp.strategy_4_adaptive_sampling requests q).sample_rate =
      specAdaptiveRate q ∧
    (sp.strategy_4_adaptive_sampling requests q).sampled =
      ⌊(requests.length : ℚ) * specAdaptiveRate q⌋ := by
  have hrate : (sp.strategy_4_adaptive_sampling requests q).sample_rate =
      specAdaptiveRate q := by
    simp only [ProductionSampler.strategy_4_adaptive_sampling, specAdaptiveRate]
    by_cases hA : 95/100 ≤ q
    · rw [if_pos hA, if_pos hA]
    · rw [if_neg hA, if_neg hA]
      by_cases hB : 85/100 ≤ q
      · have hB' : (85 : ℚ)/100 ≤ q ∧ q < 95/100 := ⟨hB, not_le.mp hA⟩
        rw [if_pos hB, if_pos hB']
      · have hB' : ¬ ((85 : ℚ)/100 ≤ q ∧ q < 95/100) := fun hx => hB hx.1
        rw [if_neg hB, if_neg hB']
        by_cases hC : 75/100 ≤ q
        · have hC' : (75 : ℚ)/100 ≤ q ∧ q < 85/100 := ⟨hC, not_le.mp hB⟩
          rw [if_pos hC, if_pos hC']
        · have hC' : ¬ ((75 : ℚ)/100 ≤ q ∧ q < 85/100) := fun hx => hC hx.1
          rw [if_neg hC, if_neg hC']
  have hs : (sp.strategy_4_adaptive_sampling requests q).sampled =
      pyInt ((requests.length : ℚ) *
        (sp.strategy_4_adaptive_sampling requests q).sample_rate) := rfl
  have hnn : 0 ≤ (requests.length : ℚ) * specAdaptiveRate q :=
    mul_nonneg (by positivity) (specAdaptiveRate_pos q).le
  exact ⟨hrate, by rw [hs, hrate, pyInt_eq_floor hnn]⟩

/-- C8: for a non-negative budget and positive daily traffic, the
random policy's sample rate is `min(1, dailyEvalLimit/dailyRequests)`
with `dailyEvalLimit = floor(dailyBudget/costPerEval)`, the sampled
count never exceeds the daily eval limit, and the reported daily cost
never exceeds the daily budget. -/
theorem random_sampling_respects_budget (sp : ProductionSampler) (n : ℕ)
    (hb : 0 ≤ sp.monthly_budget) (hn : 0 < n) :
    (sp.strategy_1_random_sampling n).sample_rate =
      min 1 ((sp.daily_eval_limit : ℚ) / (n : ℚ)) ∧
    sp.daily_eval_limit = ⌊sp.daily_budget / sp.cost_per_eval⌋ ∧
    (sp.strategy_1_random_sampling n).sampled ≤ sp.daily_eval_limit ∧
    (sp.strategy_1_random_sampling n).daily_cost ≤ sp.daily_budget := by
  have hcost : (0 : ℚ) < sp.cost_per_eval := by
    rw [ProductionSampler.cost_per_eval]; norm_num
  have hdb : 0 ≤ sp.daily_budget := by
    rw [ProductionSampler.daily_budget]; positivity
  have hx : 0 ≤ sp.daily_budget / sp.cost_per_eval := by positivity
  have hfloor : sp.daily_eval_limit = ⌊sp.daily_budget / sp.cost_per_eval⌋ :=
    pyInt_eq_floor hx
  have hL0 : 0 ≤ sp.daily_eval_limit := by
    rw [hfloor]
    exact Int.floor_nonneg.mpr hx
  have hLcost : (sp.daily_eval_limit : ℚ) * sp.cost_per_eval ≤ sp.daily_budget := by
    have h1 : (sp.daily_eval_limit : ℚ) ≤ sp.daily_budget / sp.cost_per_eval := by
      rw [hfloor]
      exact Int.floor_le _
    calc (sp.daily_eval_limit : ℚ) * sp.cost_per_eval
        ≤ (sp.daily_budget / sp.cost_per_eval) * sp.cost_per_eval :=
          mul_le_mul_of_nonneg_right h1 hcost.le
      _ = sp.daily_budget := div_mul_cancel₀ _ hcost.ne'
  have hnq : (0 : ℚ) < (n : ℚ) := by exact_mod_cast hn
  have hsampled : (sp.strategy_1_random_sampling n).sampled =
      pyInt ((n : ℚ) * (sp.strategy_1_random_sampling n).sample_rate) := rfl
  have hcostf : (sp.strategy_1_random_sampling n).daily_cost =
      ((sp.strategy_1_random_sampling n).sampled : ℚ) * sp.cost_per_eval := rfl
  by_cases hc : (n : ℤ) ≤ sp.daily_eval_limit
  · have hrate : (sp.strategy_1_random_sampling n).sample_rate = 1 := by
      simp only [ProductionSampler.strategy_1_random_sampling, if_pos hc]
    have hnL : (n : ℚ) ≤ (sp.daily_eval_limit : ℚ) := by exact_mod_cast hc
    have hmin : min 1 ((sp.daily_eval_limit : ℚ) / (n : ℚ)) = 1 := by
      apply min_eq_left
      rw [le_div_iff₀ hnq, one_mul]
      exact hnL
    have hsn : (sp.strategy_1_random_sampling n).sampled = (n : ℤ) := by
      rw [hsampled, hrate, mul_one]
      have : ((n : ℕ) : ℚ) = ((n : ℤ) : ℚ) := by push_cast; ring
      rw [this, pyInt_intCast]
    refine ⟨by rw [hrate, hmin], hfloor, by rw [hsn]; exact hc, ?_⟩
    rw [hcostf, hsn]
    calc ((n : ℤ) : ℚ) * sp.cost_per_eval
        ≤ (sp.daily_eval_limit : ℚ) * sp.cost_per_eval :=
          mul_le_mul_of_nonneg_right (by exact_mod_cast hc) hcost.le
      _ ≤ sp.daily_budget := hLcost
  · have hrate : (sp.strategy_1_random_sampling n).sample_rate =
        (sp.daily_eval_limit : ℚ) / (n : ℚ) := by
      simp only [ProductionSampler.strategy_1_random_sampling, if_neg hc]
    have hLn : (sp.daily_eval_limit : ℚ) < (n : ℚ) := by
      exact_mod_cast not_le.mp hc
    have hmin : min 1 ((sp.daily_eval_limit : ℚ) / (n : ℚ)) =
        (sp.daily_eval_limit : ℚ) / (n : ℚ) := by
      apply min_eq_right
      rw [div_le_one hnq]
      exact hLn.le
    have hcancel : (n : ℚ) * ((sp.daily_eval_limit : ℚ) / (n : ℚ)) =
        (sp.daily_eval_limit : ℚ) := by
      rw [mul_comm, div_mul_cancel₀ _ hnq.ne']
    have hsn : (sp.strategy_1_random_sampling n).sampled =
        sp.daily_eval_limit := by
      rw [hsampled, hrate, hcancel, pyInt_intCast]
    refine ⟨by rw [hrate, hmin], hfloor, by rw [hsn], ?_⟩
    rw [hcostf, hsn]
    exact hLcost

/-- Witness for C8 at the `__main__` configuration: budget `$500`,
`1000` daily requests. -/
theorem random_sampling_respects_budget_witness :
    (sampler500.strategy_1_random_sampling 1000).sample_rate =
      min 1 ((sampler500.daily_eval_limit : ℚ) / ((1000 : ℕ) : ℚ)) ∧
    sampler500.daily_eval_limit =
      ⌊sampler500.daily_budget / sampler500.cost_per_eval⌋ ∧
    (sampler500.strategy_1_random_sampling 1000).sampled ≤
      sampler500.daily_eval_limit ∧
    (sampler500.strategy_1_random_sampling 1000).daily_cost ≤
      sampler500.daily_budget :=
  random_sampling_respects_budget sampler500 1000
    (by norm_num [sampler500]) (by norm_num)

end Production

/-- C9 counterexample: the priority sampler raises `ZeroDivisionError`
on an empty candidate list (its `coverage` field divides by
`len(requests)`), so not every component handles empty input by
returning an empty result without raising. -/
theorem empty_inputs_counterexample :
    Production.sampler500.strategy_2_priority_sampling (fun _ => 0) [] =
      Except.error "ZeroDivisionError" := rfl

/-- C9 (amended): on empty input the regression detector returns an
explicit empty result without raising (as for any history of fewer
than two runs), but the priority sampler and the summary aggregator
raise `ZeroDivisionError` by dividing by the empty input's length. -/
theorem empty_input_behavior (short : List EvalMonitor.RunEntry)
    (hshort : short.length < 2) (sp : Production.ProductionSampler)
    (draws : ℕ → ℚ) :
    EvalMonitor.identify_regressions short = Except.ok [] ∧
    sp.strategy_2_priority_sampling draws [] =
      Except.error "ZeroDivisionError" ∧
    EvalSuite.print_summary [] = Except.error "ZeroDivisionError" := by
  refine ⟨?_, rfl, rfl⟩
  rw [EvalMonitor.identify_regressions.eq_def, if_pos hshort]

/-- Witness for C9 (amended) at the empty history, the `__main__`
sampler and a constant draw stream. -/
theorem empty_input_behavior_witness :
    EvalMonitor.identify_regressions [] = Except.ok [] ∧
    Production.sampler500.strategy_2_priority_sampling (fun _ => 0) [] =
      Except.error "ZeroDivisionError" ∧
    EvalSuite.print_summary [] = Except.error "ZeroDivisionError" :=
  empty_input_behavior [] (by norm_num) Production.sampler500 (fun _ => 0)
